import Mathlib

/-!
Verification development for the ChurchDirectoryMap repository.

The Python sources are shallowly embedded:
- `churches/services.py` (GeocodingService, ChurchDataService),
- `churches/models.py` (Church model: validation, Haversine distance,
  bounding-box proximity filter),
- `churches/views.py` (ChurchSearchAPIView.get_queryset).

Modelling conventions:
- Python numeric values (floats / Decimals) are modelled as `ℚ` where the
  code only compares and copies them, and as `ℝ` where transcendental
  functions (`math.sin`, `math.cos`, `math.asin`, `math.sqrt`,
  `math.radians`) are involved.
- The network is abstracted as a schedule `Nat → AttemptOutcome` giving,
  for each attempt index, what `session.get` + `raise_for_status` +
  `response.json()` produce for that attempt.
- Django cache is an association list keyed by the (lowercased, stripped
  address, lowercased country) pair; the md5 hashing of that pair in
  `_get_cache_key` is injective on intent, so the pair itself is used as
  the key.
- Django QuerySets for the proximity search are modelled as membership
  predicates over a list of stored records.
- The production settings use the sqlite3 engine, so `HAS_POSTGIS` is
  `False`; the embedded code is the non-PostGIS branch of `models.py`.
- Django `full_clean` is modelled as the model's custom `clean` (plus the
  field range validators, which `clean` re-checks); framework-level field
  validation such as `max_length` or URL/email syntax is out of scope.
-/

/-! ### String primitives

Python `str.lower()` and `str.strip()`, implemented by structural
recursion over the character list (so that concrete runs reduce inside
the kernel). -/

/-- Python `str.lower()`. -/
def lowerStr (s : String) : String := ⟨s.data.map Char.toLower⟩

/-- Python `str.strip()`: remove leading and trailing whitespace. -/
def trimStr (s : String) : String :=
  ⟨((s.data.dropWhile Char.isWhitespace).reverse.dropWhile
      Char.isWhitespace).reverse⟩

/-! ### GeocodingService constants (services.py lines 33-36) -/

def DEFAULT_TIMEOUT : Int := 10

def DEFAULT_RETRIES : Int := 3

/-- `DEFAULT_RETRY_DELAY = 1` second (services.py line 35). -/
def DEFAULT_RETRY_DELAY : ℚ := 1

/-- `_determine_accuracy` (services.py lines 272-295).
`confidence = properties.get('confidence', 0)`; `layer =
properties.get('layer', '').lower()`; then the three-way branch. -/
def determine_accuracy (layer : String) (confidence : ℚ) : String :=
  let l := lowerStr layer
  if (l = "address" ∨ l = "venue") ∧ confidence ≥ (0.8 : ℚ) then "high"
  else if l = "street" ∨ confidence ≥ (0.5 : ℚ) then "medium"
  else "low"

/-! ### geocode_address retry loop (services.py lines 113-175) -/

/-- The successful payload built by `_parse_geocoding_response`
(services.py lines 256-264). -/
structure GeoSuccess where
  latitude : ℚ
  longitude : ℚ
  accuracy : String
  formatted_address : String
  confidence : ℚ
  layer : String
deriving DecidableEq

/-- The result dictionary returned by `_parse_geocoding_response` /
`geocode_address`: either `success: True` with a payload, or
`success: False` with an `error` string. -/
inductive GeoResult where
  | ok (r : GeoSuccess)
  | fail (err : String)
deriving DecidableEq

/-- `success` flag of the result dictionary. -/
def GeoResult.success : GeoResult → Bool
  | .ok _ => true
  | .fail _ => false

/-- What one iteration of the attempt loop observes from the network:
`session.get` + `response.raise_for_status()` + `response.json()` +
`_parse_geocoding_response`.
- `ok r`: no exception; `r` is the parsed result dictionary.
- `timeout m`: `requests.exceptions.Timeout` was raised.
- `httpError st m`: `requests.exceptions.HTTPError`; `st` is
  `e.response.status_code` (`none` models a missing response object).
- `requestError m`: generic `requests.exceptions.RequestException`.
- `jsonError m`: `ValueError`/`KeyError` from `response.json()`. -/
inductive AttemptOutcome where
  | ok (r : GeoResult)
  | timeout (m : String)
  | httpError (st : Option Nat) (m : String)
  | requestError (m : String)
  | jsonError (m : String)
deriving DecidableEq

/-- How the attempt loop ends: an explicit `return result` from inside the
loop, or falling out of the loop to the failure path. -/
inductive LoopExit where
  | returned (r : GeoResult)
  | failed (m : String)
deriving DecidableEq

/-- Observable trace of the attempt loop: the `time.sleep` durations in
order, the number of network requests issued, and how it ended. -/
structure LoopResult where
  sleeps : List ℚ
  calls : Nat
  exit : LoopExit
deriving DecidableEq

/-- Renders `e.response.status_code if ... else 'unknown'`
(services.py line 150). -/
def statusText : Option Nat → String
  | some n => toString n
  | none => "unknown"

/-- Renders Python `last_error` (a `str` or `None`) into the f-string of
services.py line 169. -/
def lastErrorText : Option String → String
  | some s => s
  | none => "None"

/-- The failure message of services.py line 169:
`f"Geocoding failed after {retries + 1} attempts: {last_error}"`. -/
def geocodeFailMsg (retries : Nat) (lastError : Option String) : String :=
  "Geocoding failed after " ++ toString (retries + 1) ++ " attempts: " ++
    lastErrorText lastError

/-- The attempt loop `for attempt in range(retries + 1)` of
`geocode_address` (services.py lines 115-175).  `fuel` is the number of
loop iterations still available (`retries + 1 - attempt` at every
reachable call); `attempt` is the 0-based loop index; `lastError` is the
Python `last_error` variable.  Returns the sleep trace, the number of
network calls made, and the loop exit. -/
def geocodeLoop (env : Nat → AttemptOutcome) (retries : Nat) :
    Nat → Nat → Option String → LoopResult
  | 0, _, lastError => ⟨[], 0, .failed (geocodeFailMsg retries lastError)⟩
  | fuel + 1, attempt, _ =>
    match env attempt with
    | .ok r => ⟨[], 1, .returned r⟩
    | .timeout m =>
      -- lines 138-140, then the bottom-of-loop fixed delay (lines 165-166)
      let le := some ("Request timeout: " ++ m)
      if attempt < retries then
        let rest := geocodeLoop env retries fuel (attempt + 1) le
        ⟨DEFAULT_RETRY_DELAY :: rest.sleeps, rest.calls + 1, rest.exit⟩
      else ⟨[], 1, .failed (geocodeFailMsg retries le)⟩
    | .httpError st m =>
      if st = some 429 then
        -- lines 143-148: linearly increasing delay, `continue`
        let le := some "Rate limit exceeded"
        if attempt < retries then
          let rest := geocodeLoop env retries fuel (attempt + 1) le
          ⟨(DEFAULT_RETRY_DELAY * (attempt + 1) : ℚ) :: rest.sleeps,
            rest.calls + 1, rest.exit⟩
        else ⟨[], 1, .failed (geocodeFailMsg retries le)⟩
      else
        -- lines 149-153: `break`
        ⟨[], 1, .failed (geocodeFailMsg retries
          (some ("HTTP error " ++ statusText st ++ ": " ++ m)))⟩
    | .requestError m =>
      -- lines 155-157, then the bottom-of-loop fixed delay
      let le := some ("Request error: " ++ m)
      if attempt < retries then
        let rest := geocodeLoop env retries fuel (attempt + 1) le
        ⟨DEFAULT_RETRY_DELAY :: rest.sleeps, rest.calls + 1, rest.exit⟩
      else ⟨[], 1, .failed (geocodeFailMsg retries le)⟩
    | .jsonError m =>
      -- lines 159-162: `break`
      ⟨[], 1, .failed (geocodeFailMsg retries
        (some ("Response parsing error: " ++ m)))⟩

/-- Python truthiness fallback `x or default` for integer parameters
(services.py lines 95-96): `None` and `0` both select the default. -/
def orDefault (x : Option Int) (default : Int) : Int :=
  match x with
  | none => default
  | some v => if v = 0 then default else v

/-- Cache keyed by (lowercased stripped address, lowercased country),
mirroring `_get_cache_key`; values are the cached result dictionaries. -/
abbrev GeoCache := List ((String × String) × GeoResult)

/-- `_get_cache_key` content `f"{address.lower().strip()}:{country.lower()}"`
(services.py line 309), with the md5 step modelled as the identity on the
pair. -/
def cacheKeyOf (address country : String) : String × String :=
  (lowerStr (trimStr address), lowerStr country)

/-- `cache.get` on the association list. -/
def cacheGet (c : GeoCache) (k : String × String) : Option GeoResult :=
  match c.find? (fun e => e.1 = k) with
  | some e => some e.2
  | none => none

/-- Observable trace of one `geocode_address` call. -/
structure GeoTrace where
  netCalls : Nat
  cacheLookups : Nat
  sleeps : List ℚ
deriving DecidableEq

/-- `geocode_address` (services.py lines 58-175).  Returns the result
dictionary, the observable trace, and the cache state afterwards.
Successful results are written to the cache inside the loop just before
`return result` (lines 132-136); this is modelled by performing the write
on the `returned` exit. -/
def geocode_address (address country : String)
    (timeout retries : Option Int) (use_cache : Bool)
    (cache : GeoCache) (env : Nat → AttemptOutcome) :
    GeoResult × GeoTrace × GeoCache :=
  if address = "" ∨ trimStr address = "" then
    (.fail "Address cannot be empty", ⟨0, 0, []⟩, cache)
  else
    let address := trimStr address
    let _t := orDefault timeout DEFAULT_TIMEOUT
    let r := orDefault retries DEFAULT_RETRIES
    let key := cacheKeyOf address country
    match use_cache, cacheGet cache key with
    | true, some cached => (cached, ⟨0, 1, []⟩, cache)
    | _, _ =>
      let lookups := if use_cache then 1 else 0
      let res := geocodeLoop env r.toNat (r.toNat + 1) 0 none
      match res.exit with
      | .returned result =>
        let cache' :=
          if result.success ∧ use_cache then (key, result) :: cache
          else cache
        (result, ⟨res.calls, lookups, res.sleeps⟩, cache')
      | .failed msg =>
        (.fail msg, ⟨res.calls, lookups, res.sleeps⟩, cache)

/-! ### Church model (models.py) -/

/-- The `Church` model fields relevant to the embedded code
(models.py lines 21-134).  `latitude`/`longitude` are nullable Decimals.
The sqlite3 engine of the production settings makes `HAS_POSTGIS` false,
so there is no `location` field. -/
structure Church where
  name : String
  street_address : String
  city : String
  state : String
  zip_code : String := ""
  phone : String := ""
  website : String := ""
  email : String := ""
  service_times : String := ""
  latitude : Option ℚ := none
  longitude : Option ℚ := none
  geocoding_accuracy : String := "medium"
  is_active : Bool := true
deriving DecidableEq

/-- Range check used by `clean` on an optional coordinate
(models.py lines 151-162): absent coordinates pass. -/
def coordInRange (v : Option ℚ) (lo hi : ℚ) : Bool :=
  match v with
  | none => true
  | some x => decide (lo ≤ x ∧ x ≤ hi)

/-- `Church.clean` (models.py lines 139-175): the sequential validation,
raising `ValidationError` modelled as `Except.error` with the message. -/
def Church.clean (c : Church) : Except String Unit :=
  if c.latitude.isNone ≠ c.longitude.isNone then
    .error "Both latitude and longitude must be provided together, or both left empty."
  else if coordInRange c.latitude (-90) 90 = false then
    .error "Latitude must be between -90 and 90 degrees."
  else if coordInRange c.longitude (-180) 180 = false then
    .error "Longitude must be between -180 and 180 degrees."
  else if trimStr c.name = "" then .error "Church name is required."
  else if trimStr c.street_address = "" then .error "Street address is required."
  else if trimStr c.city = "" then .error "City is required."
  else if trimStr c.state = "" then .error "State is required."
  else .ok ()

/-- `Church.save` (models.py lines 177-188): with `HAS_POSTGIS` false the
PostGIS sync is skipped; `full_clean` runs the validation and then the row
is persisted.  The persisted record is returned. -/
def Church.save (c : Church) : Except String Church :=
  match c.clean with
  | .error e => .error e
  | .ok _ => .ok c

/-- `full_address` property (models.py lines 190-198). -/
def Church.full_address (c : Church) : String :=
  let parts := [c.street_address, c.city, c.state] ++
    (if c.zip_code ≠ "" then [c.zip_code] else [])
  String.intercalate ", " ((parts.map trimStr).filter (· ≠ ""))

/-- `has_coordinates` property (models.py lines 200-214). -/
def Church.has_coordinates (c : Church) : Bool :=
  c.latitude.isSome && c.longitude.isSome

/-- Banker's rounding (round-half-to-even) of a rational to an integer,
the default rounding of Python `Decimal.quantize`. -/
def roundHalfEven (x : ℚ) : ℤ :=
  let n := ⌊x⌋
  let f := x - n
  if f < 1/2 then n
  else if 1/2 < f then n + 1
  else if n % 2 = 0 then n else n + 1

/-- `Decimal(str(v)).quantize(Decimal('0.0000001'))` (models.py lines
354-356): quantize to 7 decimal places. -/
def quantize7 (x : ℚ) : ℚ := (roundHalfEven (x * 10 ^ 7) : ℚ) / 10 ^ 7

/-- `set_coordinates` (models.py lines 333-361); `ValueError` is modelled
as `Except.error`.  (The PostGIS branch is dead code here.) -/
def Church.set_coordinates (c : Church) (latitude longitude : ℚ)
    (accuracy : String) : Except String Church :=
  if ¬(-90 ≤ latitude ∧ latitude ≤ 90) then
    .error "Latitude must be between -90 and 90 degrees."
  else if ¬(-180 ≤ longitude ∧ longitude ≤ 180) then
    .error "Longitude must be between -180 and 180 degrees."
  else if ¬(accuracy = "high" ∨ accuracy = "medium" ∨ accuracy = "low") then
    .error "Accuracy must be one of high, medium, low."
  else
    .ok { c with
          latitude := some (quantize7 latitude)
          longitude := some (quantize7 longitude)
          geocoding_accuracy := accuracy }

/-! ### Distance calculation (models.py lines 270-331), over ℝ -/

/-- `math.radians` (models.py line 284). -/
noncomputable def radiansOf (d : ℝ) : ℝ := d * Real.pi / 180

/-- `_haversine_distance` (models.py lines 270-298): Haversine formula
with Earth radius 6371 km; `c = 2 * asin(sqrt(a))`, result `c * r`. -/
noncomputable def haversine_distance (lat1 lon1 lat2 lon2 : ℝ) : ℝ :=
  2 * Real.arcsin (Real.sqrt (
    Real.sin ((radiansOf lat2 - radiansOf lat1) / 2) ^ 2 +
    Real.cos (radiansOf lat1) * Real.cos (radiansOf lat2) *
      Real.sin ((radiansOf lon2 - radiansOf lon1) / 2) ^ 2)) * 6371

/-- `distance_to_point` (models.py lines 242-268), non-PostGIS branch:
`None` without coordinates, otherwise the Haversine distance from the
record to the given point. -/
noncomputable def Church.distance_to_point (c : Church)
    (latitude longitude : ℝ) : Option ℝ :=
  match c.latitude, c.longitude with
  | some la, some lo =>
    some (haversine_distance (la : ℝ) (lo : ℝ) latitude longitude)
  | _, _ => none

/-- Membership in the QuerySet produced by `Church.find_nearby`
(models.py lines 300-331), non-PostGIS branch: the bounding-box filter
over active records.  SQL `BETWEEN` on a NULL column is false, so records
must carry both coordinates. -/
def inFindNearby (db : List Church) (latitude longitude radius_km : ℝ)
    (c : Church) : Prop :=
  let lat_delta := radius_km / 111.32
  let lon_delta := radius_km / (111.32 * Real.cos (radiansOf latitude))
  c ∈ db ∧
  (∃ la lo : ℚ, c.latitude = some la ∧ c.longitude = some lo ∧
    latitude - lat_delta ≤ (la : ℝ) ∧ (la : ℝ) ≤ latitude + lat_delta ∧
    longitude - lon_delta ≤ (lo : ℝ) ∧ (lo : ℝ) ≤ longitude + lon_delta) ∧
  c.is_active = true

/-! ### ChurchDataService (services.py lines 349-591) -/

/-- Result dictionary of `geocode_church` (services.py lines 363-415). -/
structure GeocodeChurchResult where
  success : Bool
  message : String
  skipped : Bool := false
  latitude : Option ℚ := none
  longitude : Option ℚ := none
  accuracy : Option String := none
deriving DecidableEq

/-- `ChurchDataService.geocode_church` (services.py lines 363-415).
`geocoder` abstracts `GeocodingService.geocode_address`; the returned
`Nat` counts its invocations (network use); the returned `Church` is the
persisted record after the call. -/
def geocode_church (church : Church) (force_update : Bool)
    (geocoder : String → GeoResult) : GeocodeChurchResult × Nat × Church :=
  if church.has_coordinates && !force_update then
    ({ success := true
       message := "Church already has coordinates"
       skipped := true }, 0, church)
  else
    match geocoder church.full_address with
    | .ok g =>
      match church.set_coordinates g.latitude g.longitude g.accuracy with
      | .ok c2 =>
        match c2.save with
        | .ok c3 =>
          ({ success := true
             message := "Successfully geocoded to (" ++ toString g.latitude
               ++ ", " ++ toString g.longitude ++ ")"
             latitude := some g.latitude
             longitude := some g.longitude
             accuracy := some g.accuracy }, 1, c3)
        | .error e =>
          ({ success := false
             message := "Error saving coordinates: " ++ e }, 1, church)
      | .error e =>
        ({ success := false
           message := "Error saving coordinates: " ++ e }, 1, church)
    | .fail e =>
      ({ success := false, message := "Geocoding failed: " ++ e }, 1, church)

/-- One input row of `import_church_data`: `data.get(k)` yields `none`
when the key is absent. -/
structure RowData where
  name : Option String := none
  street_address : Option String := none
  city : Option String := none
  state : Option String := none
  zip_code : Option String := none
  phone : Option String := none
  website : Option String := none
  email : Option String := none
  service_times : Option String := none
  is_active : Option Bool := none
deriving DecidableEq

/-- Summary dictionary of `import_church_data` (services.py lines
505-513 and 580-588); `failed_records` keeps (1-based index, error). -/
structure ImportSummary where
  success : Bool
  message : String
  total : Nat
  created : Nat
  updated : Nat
  failed : Nat
  failed_records : List (Nat × String)
deriving DecidableEq

/-- Accumulator of the import loop. -/
structure ImportState where
  created : Nat := 0
  updated : Nat := 0
  failed : Nat := 0
  failed_records : List (Nat × String) := []
  db : List Church
deriving DecidableEq

/-- Replace the first record satisfying `p` (single-row UPDATE of the
matched record). -/
def replaceFirst (p : Church → Bool) (new : Church) :
    List Church → List Church
  | [] => []
  | c :: rest => if p c then new :: rest else c :: replaceFirst p new rest

/-- The `get_or_create` composite key match of services.py lines 541-545. -/
def rowKeyMatch (name street city state : String) (c : Church) : Bool :=
  c.name == name && c.street_address == street && c.city == city &&
    c.state == state

/-- One iteration of the `import_church_data` loop (services.py lines
523-578): required-field check, then `get_or_create` + update. -/
def import_row (st : ImportState) (idx : Nat) (row : RowData) : ImportState :=
  let name := trimStr (row.name.getD "")
  let street := trimStr (row.street_address.getD "")
  let city := trimStr (row.city.getD "")
  let state := trimStr (row.state.getD "")
  if name = "" ∨ street = "" ∨ city = "" ∨ state = "" then
    { st with
      failed := st.failed + 1
      failed_records := st.failed_records ++
        [(idx, "Missing required fields (name, street_address, city, state)")] }
  else
    match st.db.find? (rowKeyMatch name street city state) with
    | none =>
      let newC : Church :=
        { name := name
          street_address := street
          city := city
          state := state
          zip_code := row.zip_code.getD ""
          phone := row.phone.getD ""
          website := row.website.getD ""
          email := row.email.getD ""
          service_times := row.service_times.getD ""
          is_active := row.is_active.getD true }
      match newC.save with
      | .ok c => { st with created := st.created + 1, db := st.db ++ [c] }
      | .error e =>
        { st with
          failed := st.failed + 1
          failed_records := st.failed_records ++ [(idx, e)] }
    | some c =>
      let c2 : Church :=
        { c with
          zip_code := row.zip_code.getD c.zip_code
          phone := row.phone.getD c.phone
          website := row.website.getD c.website
          email := row.email.getD c.email
          service_times := row.service_times.getD c.service_times
          is_active := row.is_active.getD c.is_active }
      match c2.save with
      | .ok c3 =>
        { st with
          updated := st.updated + 1
          db := replaceFirst (rowKeyMatch name street city state) c3 st.db }
      | .error e =>
        { st with
          failed := st.failed + 1
          failed_records := st.failed_records ++ [(idx, e)] }

/-- `for i, data in enumerate(church_data, 1)` (services.py line 523). -/
def import_loop (idx : Nat) (st : ImportState) :
    List RowData → ImportState
  | [] => st
  | row :: rest => import_loop (idx + 1) (import_row st idx row) rest

/-- `ChurchDataService.import_church_data` (services.py lines 493-591). -/
def import_church_data (rows : List RowData) (db : List Church) :
    ImportSummary × List Church :=
  if rows = [] then
    ({ success := false
       message := "No church data provided"
       total := 0
       created := 0
       updated := 0
       failed := 0
       failed_records := [] }, db)
  else
    let st := import_loop 1 { db := db } rows
    ({ success := true
       message := "Import completed: " ++ toString st.created ++
         " created, " ++ toString st.updated ++ " updated, " ++
         toString st.failed ++ " failed"
       total := rows.length
       created := st.created
       updated := st.updated
       failed := st.failed
       failed_records := st.failed_records }, st.db)

/-! ### ChurchSearchAPIView.get_queryset (views.py lines 91-172) -/

/-- Case-insensitive substring match (`__icontains`). -/
def icontains (hay needle : String) : Bool :=
  decide ((lowerStr needle).data <:+: (lowerStr hay).data)

/-- The `Q(...) | Q(...)` text filter of views.py lines 137-142. -/
def matchesQuery (q : String) (c : Church) : Bool :=
  icontains c.name q || icontains c.city q || icontains c.state q ||
    icontains c.street_address q

/-- What `get_queryset` returns, as data: a proximity QuerySet around a
center (whose members are given by `inFindNearby` and which the view
annotates with `distance_to_point`), a plain list of text-search results
(no distance annotation), or the empty QuerySet. -/
inductive SearchOutcome where
  | nearby (latitude longitude radius : ℚ)
  | direct (results : List Church)
  | empty
deriving DecidableEq

/-- Python truthiness of an optional query parameter: absent (`None`) and
empty string are falsy. -/
def truthyParam : Option String → Bool
  | none => false
  | some s => s ≠ ""

/-- `ChurchSearchAPIView.get_queryset` (views.py lines 98-172).
`parseNum` abstracts Python `float(...)` (`none` = `ValueError`);
`geocoder` abstracts `GeocodingService.geocode_address` on the text
query. -/
def get_queryset (db : List Church) (q lat lng radius : Option String)
    (parseNum : String → Option ℚ) (geocoder : String → GeoResult) :
    SearchOutcome :=
  let qv := q.getD ""
  let radiusVal : ℚ :=
    match radius with
    | none => 50
    | some s => (parseNum s).getD 50
  if truthyParam lat && truthyParam lng then
    match parseNum (lat.getD ""), parseNum (lng.getD "") with
    | some la, some ln => .nearby la ln radiusVal
    | _, _ => .empty
  else if qv ≠ "" then
    let text_results := db.filter (fun c => c.is_active && matchesQuery qv c)
    if text_results ≠ [] then .direct text_results
    else
      match geocoder qv with
      | .ok g => .nearby g.latitude g.longitude radiusVal
      | .fail _ => .empty
  else .empty

/-- Membership in the QuerySet denoted by a `SearchOutcome`. -/
def SearchOutcome.member (db : List Church) (o : SearchOutcome)
    (c : Church) : Prop :=
  match o with
  | .nearby la ln r => inFindNearby db (la : ℝ) (ln : ℝ) (r : ℝ) c
  | .direct rs => c ∈ rs
  | .empty => False

/-- The `distance` attribute the view attaches to proximity results
(views.py lines 125-126); text results carry none. -/
noncomputable def SearchOutcome.distanceOf (o : SearchOutcome)
    (c : Church) : Option ℝ :=
  match o with
  | .nearby la ln _ => c.distance_to_point (la : ℝ) (ln : ℝ)
  | _ => none

/-! ### Auxiliary definitions used by the theorems below -/

/-- Outcomes the attempt loop retries (timeout, HTTP 429, generic network
error), as opposed to the fail-fast outcomes. -/
def retryableOutcome : AttemptOutcome → Bool
  | .timeout _ => true
  | .requestError _ => true
  | .httpError st _ => st = some 429
  | .ok _ => false
  | .jsonError _ => false

/-- The `last_error` string the loop records for a retryable outcome. -/
def lastCauseOf : AttemptOutcome → String
  | .timeout m => "Request timeout: " ++ m
  | .requestError m => "Request error: " ++ m
  | .httpError _ _ => "Rate limit exceeded"
  | .ok _ => ""
  | .jsonError m => "Response parsing error: " ++ m

/-- Network schedule on which every attempt times out. -/
def envTimeoutAll : Nat → AttemptOutcome := fun i => .timeout (toString i)

/-- Network schedule on which every attempt gets an HTTP 500. -/
def envHttp500 : Nat → AttemptOutcome :=
  fun _ => .httpError (some 500) "server error"

/-- Network schedule on which every attempt is rate limited (HTTP 429). -/
def env429All : Nat → AttemptOutcome :=
  fun _ => .httpError (some 429) "too many requests"

/-- A stored record sitting at the north-east corner of the 10 km bounding
box around (40.7128, -74.0060): offset +0.0897 degrees in both latitude
and longitude. -/
def cornerChurch : Church :=
  { name := "Corner Church", street_address := "1 Corner Rd",
    city := "New York", state := "NY",
    latitude := some (40.8025 : ℚ), longitude := some (-73.9163 : ℚ) }

/-- A valid import row. -/
def validRow : RowData :=
  { name := some "First Church", street_address := some "1 Main St",
    city := some "Columbus", state := some "OH" }

/-- An import row whose name is empty after trimming. -/
def emptyNameRow : RowData :=
  { name := some "  ", street_address := some "2 Main St",
    city := some "Columbus", state := some "OH" }

/-- A record that already has coordinates. -/
def locatedChurch : Church :=
  { name := "Located Church", street_address := "3 Main St",
    city := "Columbus", state := "OH",
    latitude := some (40 : ℚ), longitude := some (-83 : ℚ) }

/-! ### Theorems -/

/-- C1: the accuracy classification is "high" when the (lowercased) layer
is address or venue and confidence is at least 0.8; otherwise "medium"
when the layer is street or confidence is at least 0.5; otherwise "low";
and the high branch is checked first, so layer venue with confidence
exactly 0.8 classifies as "high". -/
theorem determine_accuracy_spec (layer : String) (confidence : ℚ) :
    (((lowerStr layer = "address" ∨ lowerStr layer = "venue") ∧
        confidence ≥ 0.8) →
      determine_accuracy layer confidence = "high") ∧
    (¬((lowerStr layer = "address" ∨ lowerStr layer = "venue") ∧
        confidence ≥ 0.8) →
      (lowerStr layer = "street" ∨ confidence ≥ 0.5) →
      determine_accuracy layer confidence = "medium") ∧
    (¬((lowerStr layer = "address" ∨ lowerStr layer = "venue") ∧
        confidence ≥ 0.8) →
      ¬(lowerStr layer = "street" ∨ confidence ≥ 0.5) →
      determine_accuracy layer confidence = "low") ∧
    determine_accuracy "venue" 0.8 = "high" := by
  refine ⟨fun h => ?_, fun h1 h2 => ?_, fun h1 h2 => ?_, ?_⟩
  · simp only [determine_accuracy]
    rw [if_pos h]
  · simp only [determine_accuracy]
    rw [if_neg h1, if_pos h2]
  · simp only [determine_accuracy]
    rw [if_neg h1, if_neg h2]
  · simp only [determine_accuracy]
    rw [if_pos ⟨Or.inr (by decide), le_refl _⟩]

/-- C1 witness: the three fixture classifications of the spec, obtained
from `determine_accuracy_spec` at concrete inputs. -/
theorem determine_accuracy_spec_witness :
    determine_accuracy "address" 0.9 = "high" ∧
    determine_accuracy "street" 0.6 = "medium" ∧
    determine_accuracy "locality" 0.3 = "low" :=
  ⟨(determine_accuracy_spec "address" 0.9).1 ⟨Or.inl (by decide), by norm_num⟩,
   (determine_accuracy_spec "street" 0.6).2.1
     (fun h => absurd h.1 (by decide)) (Or.inl (by decide)),
   (determine_accuracy_spec "locality" 0.3).2.2.1
     (fun h => absurd h.1 (by decide))
     (fun h => h.elim (fun hs => absurd hs (by decide))
       (fun hq => absurd hq (by norm_num)))⟩

/-- C7: an empty or whitespace-only address makes `geocode_address` fail
immediately with `Address cannot be empty`: zero network calls, zero
cache lookups, no sleeps, and the cache is returned unchanged. -/
theorem geocode_address_empty_spec (address country : String)
    (timeout retries : Option Int) (use_cache : Bool) (cache : GeoCache)
    (env : Nat → AttemptOutcome)
    (h : address = "" ∨ trimStr address = "") :
    geocode_address address country timeout retries use_cache cache env =
      (.fail "Address cannot be empty", ⟨0, 0, []⟩, cache) := by
  unfold geocode_address
  rw [if_pos h]

/-- C7 witness: the whitespace-only address `"   "` with a live cache and
a network that would answer. -/
theorem geocode_address_empty_spec_witness :
    geocode_address "   " "US" none none true [] envTimeoutAll =
      (.fail "Address cannot be empty", ⟨0, 0, []⟩, []) :=
  geocode_address_empty_spec "   " "US" none none true [] envTimeoutAll
    (Or.inr (by decide))

/-- C9: passing 0 for `timeout` or `retries` is silently replaced by the
defaults because the fallback uses Python truthiness (`x or default`):
a call with both parameters 0 behaves exactly like a call with the
defaults, and with `retries=0` an all-timeout network still sees
4 attempts (the default 3 retries plus the initial attempt). -/
theorem geocode_address_zero_spec :
    (∀ d : Int, orDefault (some 0) d = d) ∧
    (∀ (address country : String) (use_cache : Bool) (cache : GeoCache)
        (env : Nat → AttemptOutcome),
      geocode_address address country (some 0) (some 0) use_cache cache env =
        geocode_address address country none none use_cache cache env) ∧
    (geocode_address "A" "US" (some 0) (some 0) false [] envTimeoutAll
      ).2.1.netCalls = 4 := by
  refine ⟨fun d => rfl, fun address country use_cache cache env => rfl,
    by decide⟩

/-- C6: with coordinates already present and no force flag,
`geocode_church` returns success with `skipped=true`, makes zero geocoder
calls and returns the record unchanged; and whenever geocoding is
attempted and fails, the record is likewise unchanged and the error is
reported in the result message. -/
theorem geocode_church_spec (church : Church)
    (geocoder : String → GeoResult) :
    (church.has_coordinates = true →
      geocode_church church false geocoder =
        ({ success := true, message := "Church already has coordinates",
           skipped := true }, 0, church)) ∧
    (∀ (force : Bool) (e : String),
      (church.has_coordinates && !force) = false →
      geocoder church.full_address = .fail e →
      geocode_church church force geocoder =
        ({ success := false, message := "Geocoding failed: " ++ e }, 1,
          church)) := by
  constructor
  · intro h
    simp [geocode_church, h]
  · intro force e hb hg
    simp [geocode_church, hb, hg]

/-- C6 witness: a record with coordinates is skipped untouched with zero
geocoder calls; the same record without coordinates is returned unchanged
when the geocoder fails. -/
theorem geocode_church_spec_witness :
    geocode_church locatedChurch false (fun _ => .fail "no results") =
      ({ success := true, message := "Church already has coordinates",
         skipped := true }, 0, locatedChurch) ∧
    geocode_church { locatedChurch with latitude := none, longitude := none }
        false (fun _ => .fail "no results") =
      ({ success := false, message := "Geocoding failed: " ++ "no results" },
        1, { locatedChurch with latitude := none, longitude := none }) :=
  ⟨(geocode_church_spec locatedChurch (fun _ => .fail "no results")).1
      (by decide),
   (geocode_church_spec
      { locatedChurch with latitude := none, longitude := none }
      (fun _ => .fail "no results")).2 false "no results" (by decide) rfl⟩

/-- C5: `import_church_data` on an empty list reports overall failure
with a no-data message and zero counts; on a non-empty list the overall
result is always successful; a row missing a required field is recorded
as a per-row failure and the loop continues with the remaining rows; and
one valid row plus one empty-name row yields created=1, failed=1,
success=true. -/
theorem import_church_data_spec :
    (∀ db : List Church,
      import_church_data [] db =
        ({ success := false
           message := "No church data provided"
           total := 0
           created := 0
           updated := 0
           failed := 0
           failed_records := [] }, db)) ∧
    (∀ (rows : List RowData) (db : List Church), rows ≠ [] →
      (import_church_data rows db).1.success = true) ∧
    (∀ (st : ImportState) (idx : Nat) (row : RowData) (rest : List RowData),
      (trimStr (row.name.getD "") = "" ∨
       trimStr (row.street_address.getD "") = "" ∨
       trimStr (row.city.getD "") = "" ∨
       trimStr (row.state.getD "") = "") →
      import_loop idx st (row :: rest) =
        import_loop (idx + 1)
          { st with
            failed := st.failed + 1
            failed_records := st.failed_records ++
              [(idx, "Missing required fields (name, street_address, city, state)")] }
          rest) ∧
    ((import_church_data [validRow, emptyNameRow] []).1.created = 1 ∧
     (import_church_data [validRow, emptyNameRow] []).1.failed = 1 ∧
     (import_church_data [validRow, emptyNameRow] []).1.success = true) := by
  refine ⟨fun db => rfl, fun rows db h => ?_, ?_, by decide⟩
  · unfold import_church_data
    rw [if_neg h]
  · intro st idx row rest h
    have hrow : import_row st idx row =
        { st with
          failed := st.failed + 1
          failed_records := st.failed_records ++
            [(idx, "Missing required fields (name, street_address, city, state)")] } := by
      simp only [import_row]
      rw [if_pos h]
    calc import_loop idx st (row :: rest)
        = import_loop (idx + 1) (import_row st idx row) rest := rfl
      _ = _ := by rw [hrow]

/-- C5 witness: the per-row-failure step and the non-empty-batch success
flag at concrete inputs, via `import_church_data_spec`. -/
theorem import_church_data_spec_witness :
    (import_church_data [emptyNameRow] []).1.success = true ∧
    import_loop 1 { db := [] } [emptyNameRow] =
      import_loop 2
        { created := 0
          updated := 0
          failed := 1
          failed_records :=
            [(1, "Missing required fields (name, street_address, city, state)")]
          db := [] } [] :=
  ⟨import_church_data_spec.2.1 [emptyNameRow] [] (by decide),
   import_church_data_spec.2.2.1 { db := [] } 1 emptyNameRow []
     (Or.inl (by decide))⟩

/-- C10: when exactly one of the `lat`/`lng` query parameters is supplied
(or either is the empty string), the coordinate branch of the search view
is skipped: the request behaves exactly as if no coordinates were given,
and with no (or an empty) text query the result set is empty — the
coordinates are never reported as invalid. -/
theorem get_queryset_partial_coords_spec (db : List Church)
    (q lat lng radius : Option String) (parseNum : String → Option ℚ)
    (geocoder : String → GeoResult)
    (h : (lat = none ∧ lng ≠ none) ∨ (lat ≠ none ∧ lng = none) ∨
      lat = some "" ∨ lng = some "") :
    get_queryset db q lat lng radius parseNum geocoder =
      get_queryset db q none none radius parseNum geocoder ∧
    ((q = none ∨ q = some "") →
      get_queryset db q lat lng radius parseNum geocoder = .empty) := by
  have hb : (truthyParam lat && truthyParam lng) = false := by
    rcases h with ⟨h1, _⟩ | ⟨_, h2⟩ | h3 | h4
    · subst h1; rfl
    · subst h2; simp [truthyParam]
    · subst h3; simp [truthyParam]
    · subst h4; simp [truthyParam]
  constructor
  · unfold get_queryset
    rw [hb]
    rfl
  · intro hq
    unfold get_queryset
    rw [hb]
    rcases hq with h | h <;> subst h <;> rfl

/-- C10 witness: `lat` supplied without `lng` behaves like no coordinates
(text branch), and with no text query the result is empty. -/
theorem get_queryset_partial_coords_spec_witness :
    get_queryset [] (some "Columbus") (some "40.7") none none
        (fun _ => none) (fun _ => .fail "e") =
      get_queryset [] (some "Columbus") none none none
        (fun _ => none) (fun _ => .fail "e") ∧
    get_queryset [] none (some "40.7") none none
        (fun _ => none) (fun _ => .fail "e") = .empty :=
  ⟨(get_queryset_partial_coords_spec [] (some "Columbus") (some "40.7")
      none none (fun _ => none) (fun _ => .fail "e")
      (Or.inr (Or.inl ⟨by decide, rfl⟩))).1,
   (get_queryset_partial_coords_spec [] none (some "40.7")
      none none (fun _ => none) (fun _ => .fail "e")
      (Or.inr (Or.inl ⟨by decide, rfl⟩))).2 (Or.inl rfl)⟩

/-- Full characterization of `Church.clean`: it accepts exactly the
records whose coordinates are paired (both absent, or both present and in
range) and whose four required fields are non-empty after trimming. -/
lemma clean_ok_iff (c : Church) :
    Church.clean c = .ok () ↔
      (((c.latitude = none ∧ c.longitude = none) ∨
        (∃ la lo : ℚ, c.latitude = some la ∧ c.longitude = some lo ∧
          -90 ≤ la ∧ la ≤ 90 ∧ -180 ≤ lo ∧ lo ≤ 180)) ∧
       trimStr c.name ≠ "" ∧ trimStr c.street_address ≠ "" ∧
       trimStr c.city ≠ "" ∧ trimStr c.state ≠ "") := by
  rcases hla : c.latitude with _ | la <;> rcases hlo : c.longitude with _ | lo
  · simp only [Church.clean, coordInRange, hla, hlo]
    split_ifs <;> simp_all
  · simp only [Church.clean, coordInRange, hla, hlo]
    split_ifs <;> simp_all
  · simp only [Church.clean, coordInRange, hla, hlo]
    split_ifs <;> simp_all
  · simp only [Church.clean, coordInRange, hla, hlo]
    split_ifs <;> simp_all

/-- C4: validation accepts the coordinate pair exactly when both are
present (within the ranges -90..90 and -180..180) or both absent (given
valid required fields); a record with only one of the two set fails with
the pairing error; and every successful save preserves the invariant
that the pair is fully present in range or fully absent. -/
theorem clean_coordinate_pairing_spec (c : Church) :
    (Church.clean c = .ok () ↔
      (((c.latitude = none ∧ c.longitude = none) ∨
        (∃ la lo : ℚ, c.latitude = some la ∧ c.longitude = some lo ∧
          -90 ≤ la ∧ la ≤ 90 ∧ -180 ≤ lo ∧ lo ≤ 180)) ∧
       trimStr c.name ≠ "" ∧ trimStr c.street_address ≠ "" ∧
       trimStr c.city ≠ "" ∧ trimStr c.state ≠ "")) ∧
    (c.latitude.isNone ≠ c.longitude.isNone →
      Church.clean c =
        .error "Both latitude and longitude must be provided together, or both left empty.") ∧
    (∀ c2 : Church, Church.save c = .ok c2 →
      ((c2.latitude = none ∧ c2.longitude = none) ∨
       (∃ la lo : ℚ, c2.latitude = some la ∧ c2.longitude = some lo ∧
         -90 ≤ la ∧ la ≤ 90 ∧ -180 ≤ lo ∧ lo ≤ 180))) := by
  refine ⟨clean_ok_iff c, fun h => ?_, fun c2 h => ?_⟩
  · unfold Church.clean
    rw [if_pos h]
  · unfold Church.save at h
    cases hc : Church.clean c with
    | error e => rw [hc] at h; exact absurd h (by simp)
    | ok u =>
      rw [hc] at h
      have hcc : c = c2 := by
        cases h
        rfl
      subst hcc
      cases u
      exact ((clean_ok_iff c).mp hc).1

/-- C4 witness: a record with only latitude set fails validation with the
pairing error; a record with both coordinates saves successfully and
satisfies the invariant. -/
theorem clean_coordinate_pairing_spec_witness :
    Church.clean { locatedChurch with longitude := none } =
      .error "Both latitude and longitude must be provided together, or both left empty." ∧
    (((locatedChurch.latitude = none ∧ locatedChurch.longitude = none) ∨
      (∃ la lo : ℚ, locatedChurch.latitude = some la ∧
        locatedChurch.longitude = some lo ∧
        -90 ≤ la ∧ la ≤ 90 ∧ -180 ≤ lo ∧ lo ≤ 180))) :=
  ⟨(clean_coordinate_pairing_spec
      { locatedChurch with longitude := none }).2.1 (by decide),
   (clean_coordinate_pairing_spec locatedChurch).2.2 locatedChurch rfl⟩

/-- On an all-retryable schedule the loop exhausts every attempt and
falls out with the failure message built from the last attempt's cause
(the cause recorded at attempt index `retries`). -/
lemma geocodeLoop_exhaust (env : Nat → AttemptOutcome) (retries : Nat)
    (henv : ∀ i, retryableOutcome (env i) = true) :
    ∀ (fuel attempt : Nat) (le : Option String),
      attempt + fuel = retries + 1 → attempt ≤ retries →
      (geocodeLoop env retries fuel attempt le).exit =
        .failed (geocodeFailMsg retries (some (lastCauseOf (env retries)))) := by
  intro fuel
  induction fuel with
  | zero => intro attempt le hsum hle; omega
  | succ n ih =>
    intro attempt le hsum hle
    have h := henv attempt
    cases henvat : env attempt with
    | ok r => rw [henvat] at h; simp [retryableOutcome] at h
    | jsonError m => rw [henvat] at h; simp [retryableOutcome] at h
    | timeout m =>
      simp only [geocodeLoop, henvat]
      by_cases hlt : attempt < retries
      · rw [if_pos hlt]
        exact ih (attempt + 1) _ (by omega) (by omega)
      · rw [if_neg hlt]
        have heq : attempt = retries := by omega
        subst heq
        rw [henvat]
        rfl
    | requestError m =>
      simp only [geocodeLoop, henvat]
      by_cases hlt : attempt < retries
      · rw [if_pos hlt]
        exact ih (attempt + 1) _ (by omega) (by omega)
      · rw [if_neg hlt]
        have heq : attempt = retries := by omega
        subst heq
        rw [henvat]
        rfl
    | httpError st m =>
      rw [henvat] at h
      have hst : st = some 429 := by simpa [retryableOutcome] using h
      subst hst
      simp only [geocodeLoop, henvat]
      rw [if_pos trivial]
      by_cases hlt : attempt < retries
      · rw [if_pos hlt]
        exact ih (attempt + 1) _ (by omega) (by omega)
      · rw [if_neg hlt]
        have heq : attempt = retries := by omega
        subst heq
        rw [henvat]
        rfl

/-- C2: per-attempt behavior of the `geocode_address` retry loop: a
timeout or generic network error at a non-final attempt retries after the
fixed 1-second delay, consuming one attempt slot; an HTTP 429 retries
after a delay of `DEFAULT_RETRY_DELAY * (attempt + 1)` (linear in the
1-based attempt number); any other HTTP error and an unparseable response
terminate the loop at once with failure and no further attempts; on an
all-retryable schedule the loop exhausts all `retries + 1` attempts and
`geocode_address` returns `success=false` with a message that ends with
the last recorded cause. -/
theorem geocode_retry_policy (env : Nat → AttemptOutcome)
    (retries fuel attempt : Nat) (le : Option String) :
    (∀ m, env attempt = .timeout m → attempt < retries →
      geocodeLoop env retries (fuel + 1) attempt le =
        ⟨DEFAULT_RETRY_DELAY ::
            (geocodeLoop env retries fuel (attempt + 1)
              (some ("Request timeout: " ++ m))).sleeps,
          (geocodeLoop env retries fuel (attempt + 1)
            (some ("Request timeout: " ++ m))).calls + 1,
          (geocodeLoop env retries fuel (attempt + 1)
            (some ("Request timeout: " ++ m))).exit⟩) ∧
    (∀ m, env attempt = .requestError m → attempt < retries →
      geocodeLoop env retries (fuel + 1) attempt le =
        ⟨DEFAULT_RETRY_DELAY ::
            (geocodeLoop env retries fuel (attempt + 1)
              (some ("Request error: " ++ m))).sleeps,
          (geocodeLoop env retries fuel (attempt + 1)
            (some ("Request error: " ++ m))).calls + 1,
          (geocodeLoop env retries fuel (attempt + 1)
            (some ("Request error: " ++ m))).exit⟩) ∧
    (∀ m, env attempt = .httpError (some 429) m → attempt < retries →
      geocodeLoop env retries (fuel + 1) attempt le =
        ⟨(DEFAULT_RETRY_DELAY * (attempt + 1) : ℚ) ::
            (geocodeLoop env retries fuel (attempt + 1)
              (some "Rate limit exceeded")).sleeps,
          (geocodeLoop env retries fuel (attempt + 1)
            (some "Rate limit exceeded")).calls + 1,
          (geocodeLoop env retries fuel (attempt + 1)
            (some "Rate limit exceeded")).exit⟩) ∧
    (∀ st m, env attempt = .httpError st m → st ≠ some 429 →
      geocodeLoop env retries (fuel + 1) attempt le =
        ⟨[], 1, .failed (geocodeFailMsg retries
          (some ("HTTP error " ++ statusText st ++ ": " ++ m)))⟩) ∧
    (∀ m, env attempt = .jsonError m →
      geocodeLoop env retries (fuel + 1) attempt le =
        ⟨[], 1, .failed (geocodeFailMsg retries
          (some ("Response parsing error: " ++ m)))⟩) ∧
    ((∀ i, retryableOutcome (env i) = true) →
      (geocodeLoop env retries (retries + 1) 0 none).exit =
        .failed (geocodeFailMsg retries (some (lastCauseOf (env retries))))) ∧
    (∀ (address country : String) (t r : Option Int) (cache : GeoCache)
        (msg : String),
      ¬(address = "" ∨ trimStr address = "") →
      (geocodeLoop env (orDefault r DEFAULT_RETRIES).toNat
        ((orDefault r DEFAULT_RETRIES).toNat + 1) 0 none).exit =
          .failed msg →
      (geocode_address address country t r false cache env).1 = .fail msg) ∧
    (∀ cause, ∃ p, geocodeFailMsg retries (some cause) = p ++ cause) := by
  refine ⟨?_, ?_, ?_, ?_, ?_, ?_, ?_, fun cause => ⟨_, rfl⟩⟩
  · intro m hm hlt
    simp only [geocodeLoop, hm]
    rw [if_pos hlt]
  · intro m hm hlt
    simp only [geocodeLoop, hm]
    rw [if_pos hlt]
  · intro m hm hlt
    simp only [geocodeLoop, hm]
    rw [if_pos trivial, if_pos hlt]
  · intro st m hm hne
    simp only [geocodeLoop, hm]
    rw [if_neg hne]
  · intro m hm
    simp only [geocodeLoop, hm]
  · intro henv
    exact geocodeLoop_exhaust env retries henv (retries + 1) 0 none
      (by omega) (by omega)
  · intro address country t r cache msg hne hexit
    unfold geocode_address
    rw [if_neg hne]
    simp only []
    rw [hexit]

/-- C2 witness: concrete runs — a timeout retry with fixed delay 1, a
429 retry at attempt 1 with delay 1 * 2, an HTTP 500 failing at once, and
an all-timeout schedule exhausting all 4 attempts with the last cause in
the message. -/
theorem geocode_retry_policy_witness :
    geocodeLoop envTimeoutAll 3 3 0 none =
      ⟨DEFAULT_RETRY_DELAY ::
          (geocodeLoop envTimeoutAll 3 2 1
            (some ("Request timeout: " ++ "0"))).sleeps,
        (geocodeLoop envTimeoutAll 3 2 1
          (some ("Request timeout: " ++ "0"))).calls + 1,
        (geocodeLoop envTimeoutAll 3 2 1
          (some ("Request timeout: " ++ "0"))).exit⟩ ∧
    geocodeLoop env429All 3 3 1 none =
      ⟨(DEFAULT_RETRY_DELAY * (1 + 1) : ℚ) ::
          (geocodeLoop env429All 3 2 2 (some "Rate limit exceeded")).sleeps,
        (geocodeLoop env429All 3 2 2 (some "Rate limit exceeded")).calls + 1,
        (geocodeLoop env429All 3 2 2 (some "Rate limit exceeded")).exit⟩ ∧
    geocodeLoop envHttp500 3 3 0 none =
      ⟨[], 1, .failed (geocodeFailMsg 3
        (some ("HTTP error " ++ statusText (some 500) ++ ": " ++
          "server error")))⟩ ∧
    (geocodeLoop envTimeoutAll 3 (3 + 1) 0 none).exit =
      .failed (geocodeFailMsg 3 (some (lastCauseOf (envTimeoutAll 3)))) :=
  ⟨(geocode_retry_policy envTimeoutAll 3 2 0 none).1 "0" rfl (by decide),
   (geocode_retry_policy env429All 3 2 1 none).2.2.1 "too many requests"
     rfl (by decide),
   (geocode_retry_policy envHttp500 3 2 0 none).2.2.2.1 (some 500)
     "server error" rfl (by decide),
   (geocode_retry_policy envTimeoutAll 3 0 0 none).2.2.2.2.2.1
     (fun i => rfl)⟩

/-- C8: the Haversine distance (Earth radius 6371 km) is symmetric in its
two points, and the distance from any point to itself is exactly 0. -/
theorem haversine_symm_and_self_zero :
    (∀ lat1 lon1 lat2 lon2 : ℝ,
      haversine_distance lat1 lon1 lat2 lon2 =
        haversine_distance lat2 lon2 lat1 lon1) ∧
    (∀ lat lon : ℝ, haversine_distance lat lon lat lon = 0) := by
  constructor
  · intro lat1 lon1 lat2 lon2
    unfold haversine_distance
    have hsin : ∀ x y : ℝ,
        Real.sin ((x - y) / 2) ^ 2 = Real.sin ((y - x) / 2) ^ 2 := by
      intro x y
      rw [show (x - y) / 2 = -((y - x) / 2) by ring, Real.sin_neg]
      ring
    rw [hsin (radiansOf lat2) (radiansOf lat1),
        hsin (radiansOf lon2) (radiansOf lon1),
        mul_comm (Real.cos (radiansOf lat1)) (Real.cos (radiansOf lat2))]
  · intro lat lon
    unfold haversine_distance
    simp [sub_self, Real.sqrt_zero, Real.arcsin_zero]

/-- Numeric lower bound on the cosine of the search-center latitude. -/
lemma cos_center_lat_lb : (0.747 : ℝ) ≤ Real.cos (radiansOf 40.7128) := by
  have h1 : radiansOf 40.7128 ≤ 0.710573 := by
    unfold radiansOf
    nlinarith [Real.pi_lt_d6]
  have h0 : (0 : ℝ) ≤ radiansOf 40.7128 := by
    unfold radiansOf
    nlinarith [Real.pi_gt_d6]
  have h2 : 1 - (radiansOf 40.7128) ^ 2 / 2 ≤ Real.cos (radiansOf 40.7128) :=
    Real.one_sub_sq_div_two_le_cos
  nlinarith [mul_le_mul h1 h1 h0 (by norm_num : (0:ℝ) ≤ 0.710573)]

/-- Numeric lower bound on the cosine of the corner record's latitude. -/
lemma cos_corner_lat_lb : (0.746 : ℝ) ≤ Real.cos (radiansOf 40.8025) := by
  have h1 : radiansOf 40.8025 ≤ 0.712139 := by
    unfold radiansOf
    nlinarith [Real.pi_lt_d6]
  have h0 : (0 : ℝ) ≤ radiansOf 40.8025 := by
    unfold radiansOf
    nlinarith [Real.pi_gt_d6]
  have h2 : 1 - (radiansOf 40.8025) ^ 2 / 2 ≤ Real.cos (radiansOf 40.8025) :=
    Real.one_sub_sq_div_two_le_cos
  nlinarith [mul_le_mul h1 h1 h0 (by norm_num : (0:ℝ) ≤ 0.712139)]

/-- The half-angle of the 0.0897-degree offset is positive. -/
lemma th_pos : (0 : ℝ) < radiansOf 0.0897 / 2 := by
  unfold radiansOf
  nlinarith [Real.pi_gt_d6]

/-- Numeric bounds on the half-angle of the 0.0897-degree offset. -/
lemma th_bounds : (0.00078278 : ℝ) ≤ radiansOf 0.0897 / 2 ∧
    radiansOf 0.0897 / 2 ≤ 0.00078279 := by
  constructor <;> unfold radiansOf
  · nlinarith [Real.pi_gt_d6]
  · nlinarith [Real.pi_lt_d6]

/-- Lower bound on the sine of the half-angle. -/
lemma sin_th_lb : (0.0007827 : ℝ) ≤ Real.sin (radiansOf 0.0897 / 2) := by
  have hlb := th_bounds.1
  have hub := th_bounds.2
  have h1 : radiansOf 0.0897 / 2 ≤ 1 := by linarith
  have h2 := Real.sin_gt_sub_cube th_pos h1
  have h3 : (radiansOf 0.0897 / 2) ^ 3 ≤ (0.00078279 : ℝ) ^ 3 :=
    pow_le_pow_left₀ (le_of_lt th_pos) hub 3
  nlinarith

/-- Upper bound on the sine of the half-angle. -/
lemma sin_th_ub : Real.sin (radiansOf 0.0897 / 2) ≤ 0.00078279 :=
  le_of_lt (lt_of_lt_of_le (Real.sin_lt th_pos) th_bounds.2)

/-- The corner record passes the radius-10 bounding-box filter around
(40.7128, -74.0060): the latitude offset 0.0897 is below
10/111.32 ≈ 0.08983, and the longitude half-width is at least 10/111.32
because cos of the latitude is at most 1. -/
lemma corner_in_nearby :
    inFindNearby [cornerChurch] 40.7128 (-74.0060) 10 cornerChurch := by
  have hcpos : (0 : ℝ) < Real.cos (radiansOf 40.7128) := by
    nlinarith [cos_center_lat_lb]
  have hcone : Real.cos (radiansOf 40.7128) ≤ 1 := Real.cos_le_one _
  have hdenpos : (0 : ℝ) < 111.32 * Real.cos (radiansOf 40.7128) := by
    nlinarith
  have hdeltapos : (0 : ℝ) < 10 / (111.32 * Real.cos (radiansOf 40.7128)) :=
    div_pos (by norm_num) hdenpos
  have hcast1 : ((40.8025 : ℚ) : ℝ) = 40.8025 := by norm_num
  have hcast2 : (((-73.9163 : ℚ)) : ℝ) = -73.9163 := by norm_num
  refine ⟨List.mem_singleton_self _,
    ⟨40.8025, -73.9163, rfl, rfl, ?_, ?_, ?_, ?_⟩, rfl⟩
  · rw [hcast1]; norm_num
  · rw [hcast1]; norm_num
  · rw [hcast2]; linarith
  · rw [hcast2]
    have key : (0.0897 : ℝ) * (111.32 * Real.cos (radiansOf 40.7128)) ≤ 10 := by
      nlinarith
    have hd : (0.0897 : ℝ) ≤ 10 / (111.32 * Real.cos (radiansOf 40.7128)) :=
      (le_div_iff₀ hdenpos).mpr key
    linarith

/-- The exact great-circle distance from the corner record to the search
center exceeds the 10 km radius (it is about 12.4 km). -/
lemma corner_distance_gt :
    10 < haversine_distance 40.8025 (-73.9163) 40.7128 (-74.0060) := by
  unfold haversine_distance
  have hlat : (radiansOf 40.7128 - radiansOf 40.8025) / 2 =
      -(radiansOf 0.0897 / 2) := by
    unfold radiansOf
    ring_nf
  have hlon : (radiansOf (-74.0060) - radiansOf (-73.9163)) / 2 =
      -(radiansOf 0.0897 / 2) := by
    unfold radiansOf
    ring_nf
  rw [hlat, hlon, Real.sin_neg]
  simp only [neg_sq]
  set s := Real.sin (radiansOf 0.0897 / 2) with hs
  set c1 := Real.cos (radiansOf 40.8025) with hc1
  set c2 := Real.cos (radiansOf 40.7128) with hc2
  have hs_lb : (0.0007827 : ℝ) ≤ s := sin_th_lb
  have hs_ub : s ≤ 0.00078279 := sin_th_ub
  have hc1_lb : (0.746 : ℝ) ≤ c1 := cos_corner_lat_lb
  have hc2_lb : (0.747 : ℝ) ≤ c2 := cos_center_lat_lb
  have hc1_ub : c1 ≤ 1 := Real.cos_le_one _
  have hc2_ub : c2 ≤ 1 := Real.cos_le_one _
  have hs_nn : (0 : ℝ) ≤ s := by linarith
  have hc1_nn : (0 : ℝ) ≤ c1 := by linarith
  have hc2_nn : (0 : ℝ) ≤ c2 := by linarith
  have hs2 : (0.0007827 : ℝ) * 0.0007827 ≤ s * s :=
    mul_le_mul hs_lb hs_lb (by norm_num) hs_nn
  have hcc : (0.746 : ℝ) * 0.747 ≤ c1 * c2 :=
    mul_le_mul hc1_lb hc2_lb (by norm_num) hc1_nn
  have ha_lb : (0.000976 : ℝ) ^ 2 ≤ s ^ 2 + c1 * c2 * s ^ 2 := by
    have ht : ((0.746 : ℝ) * 0.747) * ((0.0007827 : ℝ) * 0.0007827) ≤
        (c1 * c2) * (s * s) :=
      mul_le_mul hcc hs2 (by norm_num) (by nlinarith)
    nlinarith
  have ha_ub : s ^ 2 + c1 * c2 * s ^ 2 ≤ 1 := by
    have hs2u : s * s ≤ (0.00078279 : ℝ) * 0.00078279 :=
      mul_le_mul hs_ub hs_ub hs_nn (by norm_num)
    have hccu : c1 * c2 ≤ 1 := mul_le_one₀ hc1_ub hc2_nn hc2_ub
    nlinarith
  have hsqrt_lb : (0.000976 : ℝ) ≤ Real.sqrt (s ^ 2 + c1 * c2 * s ^ 2) :=
    Real.le_sqrt_of_sq_le ha_lb
  have hsqrt_ub : Real.sqrt (s ^ 2 + c1 * c2 * s ^ 2) ≤ 1 :=
    Real.sqrt_le_one.mpr ha_ub
  have harcsin : (0.000976 : ℝ) ≤
      Real.arcsin (Real.sqrt (s ^ 2 + c1 * c2 * s ^ 2)) := by
    have hx : (0.000976 : ℝ) ∈ Set.Icc (-(Real.pi / 2)) (Real.pi / 2) :=
      ⟨by nlinarith [Real.pi_gt_three], by nlinarith [Real.pi_gt_three]⟩
    have hy : Real.sqrt (s ^ 2 + c1 * c2 * s ^ 2) ∈ Set.Icc (-1 : ℝ) 1 :=
      ⟨by nlinarith [Real.sqrt_nonneg (s ^ 2 + c1 * c2 * s ^ 2)], hsqrt_ub⟩
    rw [Real.le_arcsin_iff_sin_le hx hy]
    have hsin := Real.sin_lt (show (0 : ℝ) < 0.000976 by norm_num)
    linarith
  linarith [harcsin]

/-- C3 counterexample: for the proximity search centered at
(40.7128, -74.0060) with radius 10, the stored corner record is a member
of the returned QuerySet (it passes the bounding-box filter), yet its
exact great-circle distance to the center, the very value the view
attaches as the `distance` annotation, exceeds 10 km. -/
theorem find_nearby_radius_counterexample :
    inFindNearby [cornerChurch] 40.7128 (-74.0060) 10 cornerChurch ∧
    ∃ d : ℝ, Church.distance_to_point cornerChurch 40.7128 (-74.0060) =
      some d ∧ 10 < d := by
  refine ⟨corner_in_nearby,
    haversine_distance ((40.8025 : ℚ) : ℝ) (((-73.9163 : ℚ)) : ℝ)
      40.7128 (-74.0060), rfl, ?_⟩
  have h1 : ((40.8025 : ℚ) : ℝ) = 40.8025 := by norm_num
  have h2 : (((-73.9163 : ℚ)) : ℝ) = -73.9163 := by norm_num
  rw [h1, h2]
  exact corner_distance_gt

/-- C3 amended: every record returned by the radius-10 proximity search
around (40.7128, -74.0060) lies inside the bounding box of the filter
and carries a non-null `distance` annotation; the exact distance itself
is not bounded by the radius (see the counterexample). -/
theorem find_nearby_box_and_distance_field (db : List Church) (c : Church)
    (h : inFindNearby db 40.7128 (-74.0060) 10 c) :
    (∃ la lo : ℚ, c.latitude = some la ∧ c.longitude = some lo ∧
      40.7128 - 10 / 111.32 ≤ (la : ℝ) ∧ (la : ℝ) ≤ 40.7128 + 10 / 111.32 ∧
      (-74.0060) - 10 / (111.32 * Real.cos (radiansOf 40.7128)) ≤ (lo : ℝ) ∧
      (lo : ℝ) ≤ (-74.0060) + 10 / (111.32 * Real.cos (radiansOf 40.7128))) ∧
    c.distance_to_point 40.7128 (-74.0060) ≠ none := by
  obtain ⟨-, ⟨la, lo, hla, hlo, h1, h2, h3, h4⟩, -⟩ := h
  refine ⟨⟨la, lo, hla, hlo, h1, h2, h3, h4⟩, ?_⟩
  unfold Church.distance_to_point
  rw [hla, hlo]
  simp

/-- C3 amended witness: the corner record, a member of the radius-10
search result, lies in the box and carries a non-null annotation. -/
theorem find_nearby_box_and_distance_field_witness :
    (∃ la lo : ℚ, cornerChurch.latitude = some la ∧
      cornerChurch.longitude = some lo ∧
      40.7128 - 10 / 111.32 ≤ (la : ℝ) ∧ (la : ℝ) ≤ 40.7128 + 10 / 111.32 ∧
      (-74.0060) - 10 / (111.32 * Real.cos (radiansOf 40.7128)) ≤ (lo : ℝ) ∧
      (lo : ℝ) ≤ (-74.0060) + 10 / (111.32 * Real.cos (radiansOf 40.7128))) ∧
    cornerChurch.distance_to_point 40.7128 (-74.0060) ≠ none :=
  find_nearby_box_and_distance_field [cornerChurch] cornerChurch corner_in_nearby
